import Mathlib

/-!
# Verification of the Tumbuhkan hydroponics dashboard pipeline

Shallow embedding of the message-driven inference-and-control pipeline:
`app/mqtt_handler.py` (message handler, status evaluation, rate-gated logging),
`app/model_handler.py` (classifier adapter and feature extraction),
`app/actuator_controller.py` (auto-control rule engine, delta publish),
`app/data_logger.py` (snapshot state store), `app/utils.py` (`safe_float`),
and the constants of `app/config.py`.

Machine reals (Python floats) are modelled as rationals; Python exceptions are
modelled with `Except`, and a `try/except` block as a `match` on the result
of the body.  File I/O outcomes (write success, file readability) are inputs of the
embedding, so that the error-handling paths of the source are genuinely
exercised.
-/

namespace Tumbuhkan

/-- A Python/JSON value as it occurs in the payloads this pipeline handles.
`num q` is any value that the Python builtin `float()` converts successfully (ints,
floats, numeric strings), `pyBool b` a JSON boolean (`float()` yields 0/1),
and `nonNumeric s` any value on which `float()` raises (e.g. the string
`"abc"`, `null`, a timestamp string). -/
inductive PyVal where
  | num (q : ℚ)
  | pyBool (b : Bool)
  | nonNumeric (s : String)
deriving DecidableEq, Repr

/-- A JSON object: association list from keys to values (first binding wins,
matching Python `dict` lookup after our left-prepending updates). -/
abbrev Payload := List (String × PyVal)

/-- Python `d.get(k, default)` on an object. -/
def pget (p : Payload) (k : String) (default : PyVal) : PyVal :=
  (p.lookup k).getD default

/-- Python `float(x)`: succeeds on numerics and booleans, raises otherwise
(the error carries the offending text). -/
def pyFloat : PyVal → Except String ℚ
  | .num q => .ok q
  | .pyBool b => .ok (if b then 1 else 0)
  | .nonNumeric s => .error s

/-- `utils.safe_float(x, default)`: `try: return float(x) except: return default`. -/
def safe_float (x : PyVal) (default : ℚ) : ℚ :=
  match pyFloat x with
  | .ok q => q
  | .error _ => default

-- Constants from `app/config.py`.

def MQTT_TOPIC_SENSOR : String := "part-iot/sensor/data"

def MQTT_TOPIC_OUTPUT : String := "part-iot/output"

def MQTT_TOPIC_ACTUATOR : String := "part-iot/actuator/status"

def MQTT_TOPIC_ACTUATOR_CONTROL : String := "part-iot/actuator/control"

def DEFAULT_LOG_INTERVAL_SECONDS : ℚ := 5

/-- `config.PH_LABELS`: 0 Too Low, 1 Low, 2 Normal, 3 High, 4 Too High. -/
def PH_LABELS : List (ℤ × String) :=
  [(0, "Too Low"), (1, "Low"), (2, "Normal"), (3, "High"), (4, "Too High")]

/-- `config.TDS_LABELS` (same table as pH). -/
def TDS_LABELS : List (ℤ × String) :=
  [(0, "Too Low"), (1, "Low"), (2, "Normal"), (3, "High"), (4, "Too High")]

/-- `config.AMBIENT_LABELS`: 0 Bad, 1 Slightly Off, 2 Ideal. -/
def AMBIENT_LABELS : List (ℤ × String) :=
  [(0, "Bad"), (1, "Slightly Off"), (2, "Ideal")]

/-- `config.LIGHT_LABELS`: 0 Too Dark, 1 Normal, 2 Too Bright. -/
def LIGHT_LABELS : List (ℤ × String) :=
  [(0, "Too Dark"), (1, "Normal"), (2, "Too Bright")]

/-- Python `dict.get(k, default)` on a label table. -/
def dictGetD (t : List (ℤ × String)) (k : ℤ) (default : String) : String :=
  (t.lookup k).getD default

/-- The four per-dimension labels derived for one sensor reading
(`ph_label`, `tds_label`, `ambient_label`, `light_label`). -/
structure LabelSet where
  ph_label : String
  tds_label : String
  ambient_label : String
  light_label : String
deriving DecidableEq, Repr

/-- Result of the status evaluation block (`mqtt_handler.on_message`,
lines 64–83): the advisory `output`, `icon`, `color` and overall `status`. -/
structure StatusResult where
  output : String
  icon : String
  color : String
  status : String
deriving DecidableEq, Repr

/-- Status Evaluator: the `critical_ph / critical_tds / critical_ambient`
checks and the `if/elif/else` ladder of `mqtt_handler.on_message` lines 64–83. -/
def evaluate_status (l : LabelSet) : StatusResult :=
  let critical_ph := l.ph_label == "Too Low" || l.ph_label == "Too High"
  let critical_tds := l.tds_label == "Too Low" || l.tds_label == "Too High"
  let critical_ambient := l.ambient_label == "Bad"
  if critical_ph || critical_tds || critical_ambient then
    ⟨"ALERT_CRITICAL", "🚨", "red", "Critical"⟩
  else if l.ph_label == "Normal" && l.tds_label == "Normal" &&
      l.ambient_label == "Ideal" && l.light_label == "Normal" then
    ⟨"ALL_NORMAL", "✅", "green", "Optimal"⟩
  else
    ⟨"NEEDS_ATTENTION", "⚠️", "orange", "Warning"⟩

/-- A full 6-field actuator command, as constructed by the auto-control rule
engine (`actuator_controller.apply_auto_control`). -/
structure ActuatorCommand where
  pump_nutrition_AB : Bool
  pump_water : Bool
  pump_Ph_Up : Bool
  pump_Ph_Down : Bool
  fan : Bool
  led : Bool
deriving DecidableEq, Repr

/-- The `# pH Control Logic` if/elif chain of `apply_auto_control`
(lines 191–202). -/
def ph_control (ph_label : String) (payload : ActuatorCommand) : ActuatorCommand :=
  if ph_label == "Too Low" then { payload with pump_Ph_Up := true }
  else if ph_label == "Low" then { payload with pump_Ph_Up := true }
  else if ph_label == "Too High" then { payload with pump_Ph_Down := true }
  else if ph_label == "High" then { payload with pump_Ph_Down := true }
  else payload

/-- The `# TDS Control Logic` if/elif chain of `apply_auto_control`
(lines 205–216). -/
def tds_control (tds_label : String) (payload : ActuatorCommand) : ActuatorCommand :=
  if tds_label == "Too Low" then { payload with pump_nutrition_AB := true }
  else if tds_label == "Low" then { payload with pump_nutrition_AB := true }
  else if tds_label == "Too High" then { payload with pump_water := true }
  else if tds_label == "High" then { payload with pump_water := true }
  else payload

/-- The `# Ambient Control Logic` if/elif chain of `apply_auto_control`
(lines 219–224). -/
def ambient_control (ambient_label : String) (payload : ActuatorCommand) :
    ActuatorCommand :=
  if ambient_label == "Bad" then { payload with fan := true }
  else if ambient_label == "Slightly Off" then { payload with fan := true }
  else payload

/-- The `# Light Control Logic` block of `apply_auto_control` (lines 227–229). -/
def light_control (light_label : String) (payload : ActuatorCommand) : ActuatorCommand :=
  if light_label == "Too Dark" then { payload with led := true }
  else payload

/-- Auto-Control Rule Engine: the command-derivation part of
`actuator_controller.apply_auto_control` (lines 180–232): start from the
all-off payload and run the four control chains in source order.  The source
then hands the payload unchanged to `publish_mqtt_simple`; we model the
derived command itself. -/
def apply_auto_control (l : LabelSet) : ActuatorCommand :=
  light_control l.light_label
    (ambient_control l.ambient_label
      (tds_control l.tds_label
        (ph_control l.ph_label ⟨false, false, false, false, false, false⟩)))

/-- Boolean string comparison is false on unequal strings. -/
lemma beq_false_of_ne {a b : String} (h : ¬ a = b) : (a == b) = false :=
  beq_eq_false_iff_ne.mpr h

/-- Effect of one pH chain step on the payload. -/
lemma ph_control_eq (s : String) (p : ActuatorCommand) :
    ph_control s p =
      { p with
        pump_Ph_Up := p.pump_Ph_Up || (s == "Too Low" || s == "Low"),
        pump_Ph_Down :=
          p.pump_Ph_Down ||
            (!(s == "Too Low" || s == "Low") && (s == "Too High" || s == "High")) } := by
  simp only [ph_control]
  split_ifs <;> simp_all [beq_false_of_ne]

/-- Effect of one TDS chain step on the payload. -/
lemma tds_control_eq (s : String) (p : ActuatorCommand) :
    tds_control s p =
      { p with
        pump_nutrition_AB := p.pump_nutrition_AB || (s == "Too Low" || s == "Low"),
        pump_water :=
          p.pump_water ||
            (!(s == "Too Low" || s == "Low") && (s == "Too High" || s == "High")) } := by
  simp only [tds_control]
  split_ifs <;> simp_all [beq_false_of_ne]

/-- Effect of one ambient chain step on the payload. -/
lemma ambient_control_eq (s : String) (p : ActuatorCommand) :
    ambient_control s p =
      { p with fan := p.fan || (s == "Bad" || s == "Slightly Off") } := by
  simp only [ambient_control]
  split_ifs <;> simp_all [beq_false_of_ne]

/-- Effect of the light chain step on the payload. -/
lemma light_control_eq (s : String) (p : ActuatorCommand) :
    light_control s p = { p with led := p.led || (s == "Too Dark") } := by
  simp only [light_control]
  split_ifs <;> simp_all [beq_false_of_ne]

/-- Closed form of the rule engine: each field of the derived command as a
boolean expression over the labels.  On a single label value the pH (resp.
TDS) up- and down-triggers are mutually exclusive, which is why the `elif`
guard `!(s == "Too Low" || s == "Low")` simplifies away. -/
lemma apply_auto_control_eq (l : LabelSet) :
    apply_auto_control l =
      ⟨l.tds_label == "Too Low" || l.tds_label == "Low",
       !(l.tds_label == "Too Low" || l.tds_label == "Low") &&
         (l.tds_label == "Too High" || l.tds_label == "High"),
       l.ph_label == "Too Low" || l.ph_label == "Low",
       !(l.ph_label == "Too Low" || l.ph_label == "Low") &&
         (l.ph_label == "Too High" || l.ph_label == "High"),
       l.ambient_label == "Bad" || l.ambient_label == "Slightly Off",
       l.light_label == "Too Dark"⟩ := by
  simp [apply_auto_control, ph_control_eq, tds_control_eq, ambient_control_eq,
    light_control_eq]

/-- C1: the Status Evaluator yields Critical / ALERT_CRITICAL exactly when a
pH or TDS label is Too Low / Too High or the ambient label is Bad; otherwise
Optimal / ALL_NORMAL exactly when all four labels are at their ideal value;
every non-critical, non-ideal label set falls through to exactly the
Warning / NEEDS_ATTENTION result; and a label set containing `Unknown` or
`Error` never yields Optimal (it yields Critical or falls through to
Warning). -/
theorem evaluate_status_correct (l : LabelSet) :
    (((evaluate_status l).status = "Critical" ∧
        (evaluate_status l).output = "ALERT_CRITICAL") ↔
      ((l.ph_label = "Too Low" ∨ l.ph_label = "Too High") ∨
       (l.tds_label = "Too Low" ∨ l.tds_label = "Too High") ∨
       l.ambient_label = "Bad")) ∧
    (((evaluate_status l).status = "Optimal" ∧
        (evaluate_status l).output = "ALL_NORMAL") ↔
      (¬ ((l.ph_label = "Too Low" ∨ l.ph_label = "Too High") ∨
          (l.tds_label = "Too Low" ∨ l.tds_label = "Too High") ∨
          l.ambient_label = "Bad") ∧
       l.ph_label = "Normal" ∧ l.tds_label = "Normal" ∧
       l.ambient_label = "Ideal" ∧ l.light_label = "Normal")) ∧
    ((evaluate_status l).status = "Critical" ∨
     (evaluate_status l).status = "Optimal" ∨
     ((evaluate_status l).status = "Warning" ∧
      (evaluate_status l).output = "NEEDS_ATTENTION")) ∧
    (¬ ((l.ph_label = "Too Low" ∨ l.ph_label = "Too High") ∨
        (l.tds_label = "Too Low" ∨ l.tds_label = "Too High") ∨
        l.ambient_label = "Bad") ∧
     ¬ (l.ph_label = "Normal" ∧ l.tds_label = "Normal" ∧
        l.ambient_label = "Ideal" ∧ l.light_label = "Normal") →
      evaluate_status l = ⟨"NEEDS_ATTENTION", "⚠️", "orange", "Warning"⟩) ∧
    ((l.ph_label = "Unknown" ∨ l.ph_label = "Error" ∨
      l.tds_label = "Unknown" ∨ l.tds_label = "Error" ∨
      l.ambient_label = "Unknown" ∨ l.ambient_label = "Error" ∨
      l.light_label = "Unknown" ∨ l.light_label = "Error") →
      (evaluate_status l).status ≠ "Optimal" ∧
      ((evaluate_status l).status = "Critical" ∨
       ((evaluate_status l).status = "Warning" ∧
        (evaluate_status l).output = "NEEDS_ATTENTION"))) := by
  simp only [evaluate_status]
  split_ifs with h1 h2 <;> (simp_all; try tauto)

/-- C1 witness: the fully-degraded label set (all `Unknown`) falls through to
exactly the Warning / NEEDS_ATTENTION result, and in particular is not
Optimal. -/
theorem evaluate_status_correct_witness :
    evaluate_status ⟨"Unknown", "Unknown", "Unknown", "Unknown"⟩ =
      ⟨"NEEDS_ATTENTION", "⚠️", "orange", "Warning"⟩ ∧
    (evaluate_status ⟨"Unknown", "Unknown", "Unknown", "Unknown"⟩).status ≠ "Optimal" :=
  ⟨(evaluate_status_correct ⟨"Unknown", "Unknown", "Unknown", "Unknown"⟩).2.2.2.1
     ⟨by decide, by decide⟩,
   ((evaluate_status_correct ⟨"Unknown", "Unknown", "Unknown", "Unknown"⟩).2.2.2.2
     (Or.inl rfl)).1⟩

/-- C2: the auto-control rule engine is the pure deterministic function in
which each actuator is on exactly under its trigger labels, all unmatched
actuators are false, and the two pH pumps are never both on. -/
theorem apply_auto_control_correct (l : LabelSet) :
    ((apply_auto_control l).pump_Ph_Up = true ↔
      (l.ph_label = "Too Low" ∨ l.ph_label = "Low")) ∧
    ((apply_auto_control l).pump_Ph_Down = true ↔
      (l.ph_label = "Too High" ∨ l.ph_label = "High")) ∧
    ((apply_auto_control l).pump_nutrition_AB = true ↔
      (l.tds_label = "Too Low" ∨ l.tds_label = "Low")) ∧
    ((apply_auto_control l).pump_water = true ↔
      (l.tds_label = "Too High" ∨ l.tds_label = "High")) ∧
    ((apply_auto_control l).fan = true ↔
      (l.ambient_label = "Bad" ∨ l.ambient_label = "Slightly Off")) ∧
    ((apply_auto_control l).led = true ↔ l.light_label = "Too Dark") ∧
    ¬ ((apply_auto_control l).pump_Ph_Up = true ∧
       (apply_auto_control l).pump_Ph_Down = true) ∧
    apply_auto_control l = apply_auto_control l := by
  rw [apply_auto_control_eq]
  refine ⟨by simp, ?_, by simp, ?_, by simp, by simp, ?_⟩
  · simp only [Bool.and_eq_true, Bool.not_eq_true', Bool.or_eq_true, beq_iff_eq,
      Bool.or_eq_false_iff, beq_eq_false_iff_ne]
    constructor
    · rintro ⟨-, h⟩; exact h
    · rintro (h | h) <;> simp [h]
  · simp only [Bool.and_eq_true, Bool.not_eq_true', Bool.or_eq_true, beq_iff_eq,
      Bool.or_eq_false_iff, beq_eq_false_iff_ne]
    constructor
    · rintro ⟨-, h⟩; exact h
    · rintro (h | h) <;> simp [h]
  · refine ⟨?_, rfl⟩
    rintro ⟨hup, hdown⟩
    simp only [Bool.and_eq_true, Bool.not_eq_true'] at hdown
    rw [hdown.1] at hup
    exact Bool.false_ne_true hup

/-- C2 witness: the spec scenario `ph_label = Too High`, everything else
ideal, turns on exactly the pH-down pump. -/
theorem apply_auto_control_correct_witness :
    (apply_auto_control ⟨"Too High", "Normal", "Ideal", "Normal"⟩).pump_Ph_Down = true :=
  (apply_auto_control_correct ⟨"Too High", "Normal", "Ideal", "Normal"⟩).2.1.mpr
    (Or.inl rfl)

/-- The fixed-order feature row built by `model_handler.predict_condition`
(lines 35–42): the `pd.DataFrame` columns, in source order. -/
structure Features where
  ph : ℚ
  tds : ℚ
  water_temperature : ℚ
  air_humidity : ℚ
  air_temperature : ℚ
  ldr_value : ℚ
deriving DecidableEq, Repr

/-- The six feature keys, in the order the DataFrame row is built. -/
def featureKeys : List String :=
  ["ph", "tds", "water_temperature", "air_humidity", "air_temperature", "ldr_value"]

/-- Feature Extractor: the row construction of `model_handler.predict_condition`
lines 35–42.  Each field is `float(payload.get(k, 0))`: a missing key falls
back to `0`, and `float()` raises on a non-numeric value (propagated here as
`.error`, to be caught by the `except` of `predict_condition`). -/
def buildFeatures (payload : Payload) : Except String Features :=
  match pyFloat (pget payload "ph" (.num 0)) with
  | .error e => .error e
  | .ok ph =>
  match pyFloat (pget payload "tds" (.num 0)) with
  | .error e => .error e
  | .ok tds =>
  match pyFloat (pget payload "water_temperature" (.num 0)) with
  | .error e => .error e
  | .ok water_temperature =>
  match pyFloat (pget payload "air_humidity" (.num 0)) with
  | .error e => .error e
  | .ok air_humidity =>
  match pyFloat (pget payload "air_temperature" (.num 0)) with
  | .error e => .error e
  | .ok air_temperature =>
  match pyFloat (pget payload "ldr_value" (.num 0)) with
  | .error e => .error e
  | .ok ldr_value =>
    .ok ⟨ph, tds, water_temperature, air_humidity, air_temperature, ldr_value⟩

/-- The opaque multi-output classifier: `model.predict(input_data)[0]` yields
four category indices, or raises (modelled as `.error`). -/
abbrev Model := Features → Except String (ℤ × ℤ × ℤ × ℤ)

/-- The body of the `try` block of `model_handler.predict_condition`
(lines 26–56): `None` model short-circuits to all-`Unknown`; otherwise build
the feature row, run the model, and map each index through its label table
with default `Unknown`.  Any raise inside surfaces as `.error`. -/
def predict_condition_body (payload : Payload) (model : Option Model) :
    Except String LabelSet :=
  match model with
  | none => .ok ⟨"Unknown", "Unknown", "Unknown", "Unknown"⟩
  | some m =>
    match buildFeatures payload with
    | .error e => .error e
    | .ok input_data =>
      match m input_data with
      | .error e => .error e
      | .ok prediction =>
        .ok ⟨dictGetD PH_LABELS prediction.1 "Unknown",
             dictGetD TDS_LABELS prediction.2.1 "Unknown",
             dictGetD AMBIENT_LABELS prediction.2.2.1 "Unknown",
             dictGetD LIGHT_LABELS prediction.2.2.2 "Unknown"⟩

/-- Classifier Adapter `model_handler.predict_condition`: the `try/except`
wrapper — any internal failure is caught and mapped to the all-`Error`
label set.  (The numeric `*_value` echo fields of the success dict are not
modelled; no claim mentions them.) -/
def predict_condition (payload : Payload) (model : Option Model) : LabelSet :=
  match predict_condition_body payload model with
  | .ok labels => labels
  | .error _ => ⟨"Error", "Error", "Error", "Error"⟩

/-- State of one JSON document on disk: missing, present but unreadable
(open/parse raises), or readable with the given contents. -/
inductive FileState where
  | absent
  | unreadable
  | content (doc : Payload)
deriving DecidableEq, Repr

/-- `data_logger.load_latest_prediction`: `try: if exists: return json.load;
except: pass; return None`.  Absent and unreadable files both yield `none`. -/
def load_latest_prediction : FileState → Option Payload
  | .absent => none
  | .unreadable => none
  | .content doc => some doc

/-- `data_logger.load_latest_actuator`: same shape as
`load_latest_prediction`, for `latest_actuator.json`. -/
def load_latest_actuator : FileState → Option Payload
  | .absent => none
  | .unreadable => none
  | .content doc => some doc

/-- The six actuator names (keys of the default payload in
`actuator_controller.publish_actuator_command`). -/
inductive ActName where
  | pump_nutrition_AB
  | pump_water
  | pump_Ph_Up
  | pump_Ph_Down
  | fan
  | led
deriving DecidableEq, Repr

/-- The JSON key of an actuator. -/
def ActName.key : ActName → String
  | .pump_nutrition_AB => "pump_nutrition_AB"
  | .pump_water => "pump_water"
  | .pump_Ph_Up => "pump_Ph_Up"
  | .pump_Ph_Down => "pump_Ph_Down"
  | .fan => "fan"
  | .led => "led"

/-- A full 6-key wire payload as assembled by `publish_actuator_command`
(values are raw JSON values: the overlay copies whatever the stored file
holds, boolean or not). -/
structure ActPayload where
  pump_nutrition_AB : PyVal
  pump_water : PyVal
  pump_Ph_Up : PyVal
  pump_Ph_Down : PyVal
  fan : PyVal
  led : PyVal
deriving DecidableEq, Repr

/-- Read one field of a wire payload. -/
def ActPayload.getA : ActPayload → ActName → PyVal
  | p, .pump_nutrition_AB => p.pump_nutrition_AB
  | p, .pump_water => p.pump_water
  | p, .pump_Ph_Up => p.pump_Ph_Up
  | p, .pump_Ph_Down => p.pump_Ph_Down
  | p, .fan => p.fan
  | p, .led => p.led

/-- `payload[name] = v` on a wire payload. -/
def ActPayload.setA : ActPayload → ActName → PyVal → ActPayload
  | p, .pump_nutrition_AB, v => { p with pump_nutrition_AB := v }
  | p, .pump_water, v => { p with pump_water := v }
  | p, .pump_Ph_Up, v => { p with pump_Ph_Up := v }
  | p, .pump_Ph_Down, v => { p with pump_Ph_Down := v }
  | p, .fan, v => { p with fan := v }
  | p, .led, v => { p with led := v }

/-- The `# Default payload` literal of `publish_actuator_command`
(lines 96–103): all six actuators `False`. -/
def defaultActPayload : ActPayload :=
  ⟨.pyBool false, .pyBool false, .pyBool false, .pyBool false, .pyBool false,
   .pyBool false⟩

/-- The overlay loop of `publish_actuator_command` (lines 111–113):
`for key in payload.keys(): if key in data: payload[key] = data[key]`. -/
def overlayStored (payload : ActPayload) (data : Payload) : ActPayload :=
  { pump_nutrition_AB :=
      (data.lookup "pump_nutrition_AB").getD payload.pump_nutrition_AB,
    pump_water := (data.lookup "pump_water").getD payload.pump_water,
    pump_Ph_Up := (data.lookup "pump_Ph_Up").getD payload.pump_Ph_Up,
    pump_Ph_Down := (data.lookup "pump_Ph_Down").getD payload.pump_Ph_Down,
    fan := (data.lookup "fan").getD payload.fan,
    led := (data.lookup "led").getD payload.led }

/-- `actuator_controller.publish_actuator_command(actuator_name, state)`:
start from the all-false default, overlay the six keys from the stored file
if it exists and is readable (a raise during the load is swallowed by
`except: pass`, keeping the default), then set the one requested field.  The
result is the payload handed to `publish_mqtt_simple`, i.e. the transmitted
wire command. -/
def publish_actuator_command (file : FileState) (actuator_name : ActName)
    (state : Bool) : ActPayload :=
  let payload := defaultActPayload
  let payload :=
    match file with
    | .absent => payload
    | .unreadable => payload
    | .content data => overlayStored payload data
  payload.setA actuator_name (.pyBool state)

/-- Reading a field after `payload[name] = v`. -/
lemma ActPayload.getA_setA (p : ActPayload) (a i : ActName) (v : PyVal) :
    (p.setA a v).getA i = if i = a then v else p.getA i := by
  cases a <;> cases i <;> simp [ActPayload.setA, ActPayload.getA]

/-- Reading a field of the overlaid payload. -/
lemma ActPayload.getA_overlayStored (p : ActPayload) (d : Payload) (i : ActName) :
    (overlayStored p d).getA i = (d.lookup i.key).getD (p.getA i) := by
  cases i <;> rfl

/-- Every field of the default payload is `False`. -/
lemma ActPayload.getA_default (i : ActName) :
    defaultActPayload.getA i = .pyBool false := by
  cases i <;> rfl

/-- C4: the single-actuator delta publish transmits the six boolean fields of
the stored snapshot with only the requested field replaced; with no stored (or an
unreadable) snapshot the other five fields are all false. -/
theorem publish_actuator_command_correct (d : Payload) (bv : ActName → Bool)
    (a : ActName) (s : Bool)
    (h : ∀ i : ActName, d.lookup i.key = some (.pyBool (bv i))) :
    (∀ i : ActName,
      (publish_actuator_command (.content d) a s).getA i =
        .pyBool (if i = a then s else bv i)) ∧
    (∀ fs : FileState, fs = .absent ∨ fs = .unreadable →
      ∀ i : ActName,
        (publish_actuator_command fs a s).getA i =
          .pyBool (if i = a then s else false)) := by
  constructor
  · intro i
    rw [publish_actuator_command, ActPayload.getA_setA]
    by_cases hi : i = a
    · simp [hi]
    · simp [hi, ActPayload.getA_overlayStored, h i]
  · rintro fs (rfl | rfl) i <;>
      rw [publish_actuator_command, ActPayload.getA_setA] <;>
      by_cases hi : i = a <;>
      simp [hi, ActPayload.getA_default]

/-- A stored snapshot with only the fan on, used as the C4 witness input. -/
def fanOnSnapshot : Payload :=
  [("pump_nutrition_AB", .pyBool false), ("pump_water", .pyBool false),
   ("pump_Ph_Up", .pyBool false), ("pump_Ph_Down", .pyBool false),
   ("fan", .pyBool true), ("led", .pyBool false)]

/-- The boolean view of `fanOnSnapshot`. -/
def fanOnBools : ActName → Bool
  | .fan => true
  | _ => false

/-- C4 witness: with `{fan: true, rest false}` stored, the delta `led = true`
transmits `fan` unchanged (true). -/
theorem publish_actuator_command_correct_witness :
    (publish_actuator_command (.content fanOnSnapshot) .led true).getA .fan =
      .pyBool true := by
  simpa [fanOnBools] using
    (publish_actuator_command_correct fanOnSnapshot fanOnBools .led true
      (fun i => by cases i <;> rfl)).1 .fan

/-- C5 counterexample: on the payload `{"ph": "abc"}` (a present but
non-numeric field) the classifier-path feature extractor raises — it does not
produce a feature tuple with `0.0` in the `ph` slot.  (The `safe_float`
fallback exists in `utils.py` but `model_handler.predict_condition` builds its
row with bare `float(...)`.) -/
theorem buildFeatures_raises_on_unparsable :
    buildFeatures [("ph", .nonNumeric "abc")] = .error "abc" := by
  rfl

/-- An absent feature key contributes `safe_float(0) = 0`. -/
lemma safe_float_absent (p : Payload) (k : String) (h : p.lookup k = none) :
    safe_float (pget p k (.num 0)) 0 = 0 := by
  simp [safe_float, pget, h, pyFloat]

/-- A model whose `predict` always raises. -/
def failingModel : Model := fun _ => .error "predict failed"

/-- If any of the six feature fields is present with a non-numeric value, the
extractor raises: either an earlier field already raises, or the chain
reaches that field and its `float()` raises. -/
lemma buildFeatures_error_of_unparsable (p : Payload) (k : String)
    (hk : k ∈ featureKeys) (s : String)
    (hs : p.lookup k = some (.nonNumeric s)) :
    ∃ e, buildFeatures p = .error e := by
  cases h1 : pyFloat (pget p "ph" (.num 0)) with
  | error e => exact ⟨e, by simp [buildFeatures, h1]⟩
  | ok q1 =>
  cases h2 : pyFloat (pget p "tds" (.num 0)) with
  | error e => exact ⟨e, by simp [buildFeatures, h1, h2]⟩
  | ok q2 =>
  cases h3 : pyFloat (pget p "water_temperature" (.num 0)) with
  | error e => exact ⟨e, by simp [buildFeatures, h1, h2, h3]⟩
  | ok q3 =>
  cases h4 : pyFloat (pget p "air_humidity" (.num 0)) with
  | error e => exact ⟨e, by simp [buildFeatures, h1, h2, h3, h4]⟩
  | ok q4 =>
  cases h5 : pyFloat (pget p "air_temperature" (.num 0)) with
  | error e => exact ⟨e, by simp [buildFeatures, h1, h2, h3, h4, h5]⟩
  | ok q5 =>
  cases h6 : pyFloat (pget p "ldr_value" (.num 0)) with
  | error e => exact ⟨e, by simp [buildFeatures, h1, h2, h3, h4, h5, h6]⟩
  | ok q6 =>
    exfalso
    fin_cases hk
    · simp [pget, hs, pyFloat] at h1
    · simp [pget, hs, pyFloat] at h2
    · simp [pget, hs, pyFloat] at h3
    · simp [pget, hs, pyFloat] at h4
    · simp [pget, hs, pyFloat] at h5
    · simp [pget, hs, pyFloat] at h6

/-- When every feature field (with its get-default 0) floats successfully,
the extractor succeeds with the `safe_float` value of each field in fixed
order. -/
lemma buildFeatures_defaults_ok (p : Payload)
    (h : ∀ k ∈ featureKeys, (pyFloat (pget p k (.num 0))).isOk = true) :
    buildFeatures p =
      .ok ⟨safe_float (pget p "ph" (.num 0)) 0,
           safe_float (pget p "tds" (.num 0)) 0,
           safe_float (pget p "water_temperature" (.num 0)) 0,
           safe_float (pget p "air_humidity" (.num 0)) 0,
           safe_float (pget p "air_temperature" (.num 0)) 0,
           safe_float (pget p "ldr_value" (.num 0)) 0⟩ := by
  have hph := h "ph" (by simp [featureKeys])
  have htds := h "tds" (by simp [featureKeys])
  have hwt := h "water_temperature" (by simp [featureKeys])
  have hah := h "air_humidity" (by simp [featureKeys])
  have hat := h "air_temperature" (by simp [featureKeys])
  have hldr := h "ldr_value" (by simp [featureKeys])
  cases eph : pyFloat (pget p "ph" (.num 0)) with
  | error e => rw [eph] at hph; simp [Except.isOk, Except.toBool] at hph
  | ok qph =>
  cases etds : pyFloat (pget p "tds" (.num 0)) with
  | error e => rw [etds] at htds; simp [Except.isOk, Except.toBool] at htds
  | ok qtds =>
  cases ewt : pyFloat (pget p "water_temperature" (.num 0)) with
  | error e => rw [ewt] at hwt; simp [Except.isOk, Except.toBool] at hwt
  | ok qwt =>
  cases eah : pyFloat (pget p "air_humidity" (.num 0)) with
  | error e => rw [eah] at hah; simp [Except.isOk, Except.toBool] at hah
  | ok qah =>
  cases eat : pyFloat (pget p "air_temperature" (.num 0)) with
  | error e => rw [eat] at hat; simp [Except.isOk, Except.toBool] at hat
  | ok qat =>
  cases eldr : pyFloat (pget p "ldr_value" (.num 0)) with
  | error e => rw [eldr] at hldr; simp [Except.isOk, Except.toBool] at hldr
  | ok qldr =>
    simp [buildFeatures, safe_float, eph, etds, ewt, eah, eat, eldr]

/-- C5 (amended): any absent feature field takes the value 0.0 — when every
present field among the six is numeric, the extractor succeeds and yields
exactly the `safe_float`-with-default-0 value of each field in fixed order —
while any feature field that is present but unparsable as a number makes the
extractor raise, the raise being caught by `predict_condition`, which then
returns the all-`Error` label set (for every loaded model). -/
theorem buildFeatures_defaults (p : Payload) :
    ((∀ k ∈ featureKeys, (pyFloat (pget p k (.num 0))).isOk = true) →
      buildFeatures p =
        .ok ⟨safe_float (pget p "ph" (.num 0)) 0,
             safe_float (pget p "tds" (.num 0)) 0,
             safe_float (pget p "water_temperature" (.num 0)) 0,
             safe_float (pget p "air_humidity" (.num 0)) 0,
             safe_float (pget p "air_temperature" (.num 0)) 0,
             safe_float (pget p "ldr_value" (.num 0)) 0⟩ ∧
      (p.lookup "ph" = none → safe_float (pget p "ph" (.num 0)) 0 = 0) ∧
      (p.lookup "tds" = none → safe_float (pget p "tds" (.num 0)) 0 = 0) ∧
      (p.lookup "water_temperature" = none →
        safe_float (pget p "water_temperature" (.num 0)) 0 = 0) ∧
      (p.lookup "air_humidity" = none →
        safe_float (pget p "air_humidity" (.num 0)) 0 = 0) ∧
      (p.lookup "air_temperature" = none →
        safe_float (pget p "air_temperature" (.num 0)) 0 = 0) ∧
      (p.lookup "ldr_value" = none →
        safe_float (pget p "ldr_value" (.num 0)) 0 = 0)) ∧
    (∀ k ∈ featureKeys, ∀ s : String, p.lookup k = some (.nonNumeric s) →
      (∃ e, buildFeatures p = .error e) ∧
      (∀ m : Model, predict_condition p (some m) =
        ⟨"Error", "Error", "Error", "Error"⟩)) := by
  constructor
  · intro h
    refine ⟨?_, safe_float_absent p "ph", safe_float_absent p "tds",
      safe_float_absent p "water_temperature", safe_float_absent p "air_humidity",
      safe_float_absent p "air_temperature", safe_float_absent p "ldr_value"⟩
    exact buildFeatures_defaults_ok p h
  · intro k hk s hs
    obtain ⟨e, he⟩ := buildFeatures_error_of_unparsable p k hk s hs
    exact ⟨⟨e, he⟩, fun m => by simp [predict_condition, predict_condition_body, he]⟩

/-- C5 (amended) witness: on `{"tds": 7}` the extractor succeeds with 7 in
the TDS slot and 0 in every absent slot; on a payload whose `ph` field is the
unparsable string `abc`, the classifier adapter returns all-`Error` labels. -/
theorem buildFeatures_defaults_witness :
    buildFeatures [("tds", .num 7)] = .ok ⟨0, 7, 0, 0, 0, 0⟩ ∧
    predict_condition [("ph", .nonNumeric "abc")] (some failingModel) =
      ⟨"Error", "Error", "Error", "Error"⟩ :=
  ⟨by simpa [safe_float, pget, pyFloat] using
      ((buildFeatures_defaults [("tds", .num 7)]).1
        (by intro k hk; fin_cases hk <;> rfl)).1,
   ((buildFeatures_defaults [("ph", .nonNumeric "abc")]).2 "ph"
      (by simp [featureKeys]) "abc" rfl).2 failingModel⟩

/-- C7: the classifier adapter is total: with no model every label is the
sentinel `Unknown`; when the body raises (feature build or prediction), every
label is the distinct sentinel `Error`; when the body succeeds its labels are
returned unchanged. -/
theorem predict_condition_correct (p : Payload) (m : Option Model) :
    predict_condition p none = ⟨"Unknown", "Unknown", "Unknown", "Unknown"⟩ ∧
    (∀ e, predict_condition_body p m = .error e →
      predict_condition p m = ⟨"Error", "Error", "Error", "Error"⟩) ∧
    (∀ labels, predict_condition_body p m = .ok labels →
      predict_condition p m = labels) := by
  refine ⟨rfl, ?_, ?_⟩ <;> intro x hx <;> simp [predict_condition, hx]

/-- C7 witness: no model yields all-`Unknown`; a raising model yields
all-`Error` on the empty payload. -/
theorem predict_condition_correct_witness :
    predict_condition [] none = ⟨"Unknown", "Unknown", "Unknown", "Unknown"⟩ ∧
    predict_condition [] (some failingModel) = ⟨"Error", "Error", "Error", "Error"⟩ :=
  ⟨(predict_condition_correct [] none).1,
   (predict_condition_correct [] (some failingModel)).2.1 "predict failed" rfl⟩

/-- C9: the two snapshot readers return the explicit no-data result `none`
(rather than raising) whenever the document is absent or unreadable. -/
theorem load_latest_noraise (fs : FileState)
    (h : fs = .absent ∨ fs = .unreadable) :
    load_latest_prediction fs = none ∧ load_latest_actuator fs = none := by
  rcases h with rfl | rfl <;> exact ⟨rfl, rfl⟩

/-- C9 witness: both readers return `none` on a missing document. -/
theorem load_latest_noraise_witness :
    load_latest_prediction .absent = none ∧ load_latest_actuator .absent = none :=
  load_latest_noraise .absent (Or.inl rfl)

/-- The `userdata` dict installed by `mqtt_handler.get_mqtt_client`
(lines 173–177): the loaded model, the log interval and the rate-gate
timestamp (initially 0). -/
structure Userdata where
  model : Option Model
  log_interval : ℚ
  last_logged_time : ℚ

/-- All pipeline-owned mutable state: the `userdata` dict, the two snapshot
documents and the append-only CSV log (represented by the wall-clock times at
which its rows were appended; no claim inspects other row fields). -/
structure World where
  userdata : Userdata
  predFile : FileState
  actFile : FileState
  logRows : List ℚ

/-- Per-message environment: the wall-clock readings taken while handling the
message and the outcomes of the file writes it attempts (so the caught
write failures of the source are genuinely exercised). -/
structure Env where
  time : ℚ
  nowStr : String
  logOk : Bool
  savePredOk : Bool
  saveActOk : Bool

/-- The undecoded payload of an inbound message: bytes that fail
`decode`/`json.loads`, valid JSON that is not an object, or a JSON object. -/
inductive RawPayload where
  | invalid (s : String)
  | scalar
  | obj (d : Payload)

/-- An inbound MQTT message. -/
structure Message where
  topic : String
  payload : RawPayload

/-- A Python exception raised inside the handler body. -/
inductive PyErr where
  | jsonError (s : String)
  | typeError
deriving DecidableEq, Repr

/-- An outward effect of handling one message: the advisory publish on
`MQTT_TOPIC_OUTPUT` (`on_message` lines 86–95). -/
inductive Effect where
  | publishOutput (status ph tds ambient light action : String)
deriving DecidableEq, Repr

/-- `data_logger.log_prediction`: appends one CSV row; its own `try/except`
returns `False` instead of raising when the write fails. -/
def log_prediction (ok : Bool) (rows : List ℚ) (t : ℚ) : List ℚ × Bool :=
  if ok then (rows ++ [t], true) else (rows, false)

/-- `data_logger.save_latest_prediction`: full-document replace; a failed
write is caught and reported as `False`, leaving the document as it was. -/
def save_latest_prediction (ok : Bool) (file : FileState) (data : Payload) :
    FileState × Bool :=
  if ok then (.content data, true) else (file, false)

/-- `data_logger.save_latest_actuator`: same shape, for
`latest_actuator.json`. -/
def save_latest_actuator (ok : Bool) (file : FileState) (data : Payload) :
    FileState × Bool :=
  if ok then (.content data, true) else (file, false)

/-- The `latest_prediction.json` document built in `on_message` lines 129–147. -/
def latest_prediction_doc (nowStr : String)
    (ph tds water_flow air_humidity air_temperature ldr water_temperature
      water_level : ℚ) (labels : LabelSet) (res : StatusResult) : Payload :=
  [("timestamp", .nonNumeric nowStr), ("ph", .num ph), ("tds", .num tds),
   ("water_flow", .num water_flow), ("air_humidity", .num air_humidity),
   ("air_temperature", .num air_temperature), ("ldr_value", .num ldr),
   ("water_temperature", .num water_temperature), ("water_level", .num water_level),
   ("ph_label", .nonNumeric labels.ph_label),
   ("tds_label", .nonNumeric labels.tds_label),
   ("ambient_label", .nonNumeric labels.ambient_label),
   ("light_label", .nonNumeric labels.light_label),
   ("status", .nonNumeric res.status), ("output", .nonNumeric res.output),
   ("icon", .nonNumeric res.icon), ("color", .nonNumeric res.color)]

/-- The sensor-event path of `on_message` (lines 38–148), after the payload
has parsed as a JSON object: extract the eight sensor values with
`safe_float`, predict, evaluate status, publish the advisory, run the rate
gate (appending a CSV row and advancing `last_logged_time` when due), and
full-replace the latest-prediction snapshot. -/
def handle_sensor (env : Env) (w : World) (payload : Payload) :
    World × List Effect :=
  let ph := safe_float (pget payload "ph" (.num 0)) 0
  let tds := safe_float (pget payload "tds" (.num 0)) 0
  let water_flow := safe_float (pget payload "water_flow" (.num 0)) 0
  let air_humidity := safe_float (pget payload "air_humidity" (.num 0)) 0
  let air_temperature := safe_float (pget payload "air_temperature" (.num 0)) 0
  let ldr := safe_float (pget payload "ldr_value" (.num 0)) 0
  let water_temperature := safe_float (pget payload "water_temperature" (.num 0)) 0
  let water_level := safe_float (pget payload "water_level" (.num 0)) 0
  let model := w.userdata.model
  let prediction_result := predict_condition payload model
  let res := evaluate_status prediction_result
  let effs := [Effect.publishOutput res.status prediction_result.ph_label
    prediction_result.tds_label prediction_result.ambient_label
    prediction_result.light_label res.output]
  let current_time := env.time
  let log_interval := w.userdata.log_interval
  let last_logged_time := w.userdata.last_logged_time
  let w :=
    if log_interval ≤ current_time - last_logged_time then
      { w with
        logRows := (log_prediction env.logOk w.logRows current_time).1,
        userdata := { w.userdata with last_logged_time := current_time } }
    else w
  let data := latest_prediction_doc env.nowStr ph tds water_flow air_humidity
    air_temperature ldr water_temperature water_level prediction_result res
  let w := { w with
    predFile := (save_latest_prediction env.savePredOk w.predFile data).1 }
  (w, effs)

/-- The actuator-status path of `on_message` (lines 30–35): stamp the parsed
object with the receipt time and full-replace the latest-actuator snapshot. -/
def handle_actuator_status (env : Env) (w : World) (d : Payload) :
    World × List Effect :=
  let actuator_data := ("timestamp", PyVal.nonNumeric env.nowStr) :: d
  ({ w with
     actFile := (save_latest_actuator env.saveActOk w.actFile actuator_data).1 },
   [])

/-- The body of the outer `try` block of `on_message`: route on topic, parse the
payload (raising on undecodable bytes, and on a non-object — item assignment
or `.get` on a scalar raises), then run the branch. -/
def on_message_body (env : Env) (w : World) (msg : Message) :
    Except PyErr (World × List Effect) :=
  if msg.topic == MQTT_TOPIC_ACTUATOR then
    match msg.payload with
    | .invalid s => .error (.jsonError s)
    | .scalar => .error .typeError
    | .obj d => .ok (handle_actuator_status env w d)
  else
    match msg.payload with
    | .invalid s => .error (.jsonError s)
    | .scalar => .error .typeError
    | .obj payload => .ok (handle_sensor env w payload)

/-- What one `on_message` call produces: the updated pipeline state, the
outward effects, and the exception escaping to the caller (the MQTT loop). -/
structure HandlerResult where
  world : World
  effects : List Effect
  escaped : Option PyErr

/-- `mqtt_handler.on_message`: the whole body is wrapped in `try/except`
(lines 28 and 150–151); an exception is printed and the handler returns, with
no state change (all raises happen before any side effect). -/
def on_message (env : Env) (w : World) (msg : Message) : HandlerResult :=
  match on_message_body env w msg with
  | .ok r => ⟨r.1, r.2, none⟩
  | .error _ => ⟨w, [], none⟩

/-- Iterated message handling: the ingestion loop delivers messages one at a
time, in arrival order. -/
def runMessages (w : World) (evs : List (Env × Message)) : World :=
  evs.foldl (fun w em => (on_message em.1 w em.2).world) w

/-- Dashboard-style read-back of one actuator key
(`dashboard.py` lines 310–315): load the snapshot and `.get(key, False)`,
with a missing document treated as all-off. -/
def read_back_actuator (file : FileState) (a : ActName) : PyVal :=
  match load_latest_actuator file with
  | none => .pyBool false
  | some d => (d.lookup a.key).getD (.pyBool false)

/-- A sensor-topic message routes to the sensor path and escapes nothing. -/
lemma on_message_sensor (env : Env) (w : World) (p : Payload) :
    on_message env w ⟨MQTT_TOPIC_SENSOR, .obj p⟩ =
      ⟨(handle_sensor env w p).1, (handle_sensor env w p).2, none⟩ := rfl

/-- An actuator-topic message routes to the actuator path and escapes
nothing. -/
lemma on_message_actuator (env : Env) (w : World) (d : Payload) :
    on_message env w ⟨MQTT_TOPIC_ACTUATOR, .obj d⟩ =
      ⟨(handle_actuator_status env w d).1, [], none⟩ := rfl

/-- The sensor path never changes the log interval. -/
lemma handle_sensor_interval (env : Env) (w : World) (p : Payload) :
    (handle_sensor env w p).1.userdata.log_interval = w.userdata.log_interval := by
  simp only [handle_sensor]
  split_ifs <;> rfl

/-- The sensor path advances `last_logged_time` to now exactly when the rate
gate fires. -/
lemma handle_sensor_last (env : Env) (w : World) (p : Payload) :
    (handle_sensor env w p).1.userdata.last_logged_time =
      if w.userdata.log_interval ≤ env.time - w.userdata.last_logged_time then
        env.time
      else w.userdata.last_logged_time := by
  simp only [handle_sensor]
  split_ifs <;> rfl

/-- The sensor path appends one CSV row exactly when the rate gate fires and
the write succeeds. -/
lemma handle_sensor_rows (env : Env) (w : World) (p : Payload) :
    (handle_sensor env w p).1.logRows =
      if w.userdata.log_interval ≤ env.time - w.userdata.last_logged_time then
        (if env.logOk = true then w.logRows ++ [env.time] else w.logRows)
      else w.logRows := by
  simp only [handle_sensor, log_prediction]
  split_ifs <;> rfl

/-- The actuator path only replaces the actuator snapshot. -/
lemma handle_actuator_world (env : Env) (w : World) (d : Payload) :
    (handle_actuator_status env w d).1 =
      { w with
        actFile :=
          if env.saveActOk = true then
            .content (("timestamp", PyVal.nonNumeric env.nowStr) :: d)
          else w.actFile } := by
  simp only [handle_actuator_status, save_latest_actuator]
  split_ifs <;> rfl

/-- C8: `on_message` never raises to its caller — for every inbound message,
including non-JSON bytes on either channel and the non-boolean actuator
payload `{"led": "yes"}`, the escaped-exception channel is empty; a message
whose body raises additionally leaves the pipeline state untouched. -/
theorem on_message_never_raises (env : Env) (w : World) (msg : Message) :
    (on_message env w msg).escaped = none ∧
    (on_message env w ⟨MQTT_TOPIC_SENSOR, .invalid "not json"⟩).world = w ∧
    (on_message env w ⟨MQTT_TOPIC_SENSOR, .invalid "not json"⟩).escaped = none ∧
    (on_message env w ⟨MQTT_TOPIC_ACTUATOR, .invalid "not json"⟩).world = w ∧
    (on_message env w
      ⟨MQTT_TOPIC_ACTUATOR, .obj [("led", .nonNumeric "yes")]⟩).escaped = none := by
  refine ⟨?_, rfl, rfl, rfl, rfl⟩
  cases hb : on_message_body env w msg <;> simp [on_message, hb]

/-- One message preserves the log invariant: the interval is untouched, the
logged times stay `L`-separated and bounded by `last_logged_time`,
`last_logged_time` only advances, and a row is appended only when the gate
fires. -/
lemma on_message_log_step (L : ℚ) (hL : 0 ≤ L) (env : Env) (w : World)
    (msg : Message) (hw : w.userdata.log_interval = L)
    (hchain : List.Chain' (fun a b => a + L ≤ b) w.logRows)
    (hlast : ∀ x, w.logRows.getLast? = some x → x ≤ w.userdata.last_logged_time) :
    (on_message env w msg).world.userdata.log_interval = L ∧
    List.Chain' (fun a b => a + L ≤ b) (on_message env w msg).world.logRows ∧
    (∀ x, (on_message env w msg).world.logRows.getLast? = some x →
      x ≤ (on_message env w msg).world.userdata.last_logged_time) ∧
    w.userdata.last_logged_time ≤
      (on_message env w msg).world.userdata.last_logged_time ∧
    ((on_message env w msg).world.logRows ≠ w.logRows →
      L ≤ env.time - w.userdata.last_logged_time) := by
  rcases msg with ⟨topic, payload⟩
  by_cases htop : (topic == MQTT_TOPIC_ACTUATOR) = true
  · cases payload with
    | invalid s =>
      have hworld : (on_message env w ⟨topic, .invalid s⟩).world = w := by
        simp [on_message, on_message_body, htop]
      rw [hworld]
      exact ⟨hw, hchain, hlast, le_refl _, fun h => absurd rfl h⟩
    | scalar =>
      have hworld : (on_message env w ⟨topic, .scalar⟩).world = w := by
        simp [on_message, on_message_body, htop]
      rw [hworld]
      exact ⟨hw, hchain, hlast, le_refl _, fun h => absurd rfl h⟩
    | obj d =>
      have hworld : (on_message env w ⟨topic, .obj d⟩).world =
          (handle_actuator_status env w d).1 := by
        simp [on_message, on_message_body, htop]
      have hud : (handle_actuator_status env w d).1.userdata = w.userdata := rfl
      have hrows : (handle_actuator_status env w d).1.logRows = w.logRows := rfl
      rw [hworld, hud, hrows]
      exact ⟨hw, hchain, hlast, le_refl _, fun h => absurd rfl h⟩
  · cases payload with
    | invalid s =>
      have hworld : (on_message env w ⟨topic, .invalid s⟩).world = w := by
        simp [on_message, on_message_body, htop]
      rw [hworld]
      exact ⟨hw, hchain, hlast, le_refl _, fun h => absurd rfl h⟩
    | scalar =>
      have hworld : (on_message env w ⟨topic, .scalar⟩).world = w := by
        simp [on_message, on_message_body, htop]
      rw [hworld]
      exact ⟨hw, hchain, hlast, le_refl _, fun h => absurd rfl h⟩
    | obj p =>
      have hworld : (on_message env w ⟨topic, .obj p⟩).world =
          (handle_sensor env w p).1 := by
        simp [on_message, on_message_body, htop]
      rw [hworld, handle_sensor_interval, handle_sensor_last, handle_sensor_rows, hw]
      by_cases hgate : L ≤ env.time - w.userdata.last_logged_time
      · simp only [if_pos hgate]
        have hadv : w.userdata.last_logged_time + L ≤ env.time := by linarith
        have hmono : w.userdata.last_logged_time ≤ env.time := by linarith
        refine ⟨trivial, ?_, ?_, hmono, fun _ => hgate⟩
        · cases hlog : env.logOk with
          | false =>
            rw [if_neg Bool.false_ne_true]
            exact hchain
          | true =>
            rw [if_pos rfl]
            refine List.chain'_append.mpr ⟨hchain, List.chain'_singleton _, ?_⟩
            intro x hx y hy
            simp only [List.head?_cons, Option.mem_def, Option.some.injEq] at hy
            subst hy
            have hxle := hlast x (Option.mem_def.mp hx)
            linarith
        · cases hlog : env.logOk with
          | false =>
            rw [if_neg Bool.false_ne_true]
            intro x hx
            exact le_trans (hlast x hx) hmono
          | true =>
            rw [if_pos rfl]
            intro x hx
            rw [List.getLast?_concat] at hx
            injection hx with hx
            exact le_of_eq hx.symm
      · simp only [if_neg hgate]
        exact ⟨trivial, hchain, hlast, le_refl _, fun h => absurd rfl h⟩

/-- The log invariant is preserved by any run of the ingestion loop. -/
lemma runMessages_log_inv (L : ℚ) (hL : 0 ≤ L) (evs : List (Env × Message)) :
    ∀ w : World, w.userdata.log_interval = L →
    List.Chain' (fun a b => a + L ≤ b) w.logRows →
    (∀ x, w.logRows.getLast? = some x → x ≤ w.userdata.last_logged_time) →
    (runMessages w evs).userdata.log_interval = L ∧
    List.Chain' (fun a b => a + L ≤ b) (runMessages w evs).logRows ∧
    (∀ x, (runMessages w evs).logRows.getLast? = some x →
      x ≤ (runMessages w evs).userdata.last_logged_time) ∧
    w.userdata.last_logged_time ≤ (runMessages w evs).userdata.last_logged_time := by
  induction evs with
  | nil => exact fun w h1 h2 h3 => ⟨h1, h2, h3, le_refl _⟩
  | cons em evs ih =>
    intro w h1 h2 h3
    have step := on_message_log_step L hL em.1 w em.2 h1 h2 h3
    have hrec := ih (on_message em.1 w em.2).world step.1 step.2.1 step.2.2.1
    have hrw : runMessages w (em :: evs) =
        runMessages (on_message em.1 w em.2).world evs := rfl
    rw [hrw]
    exact ⟨hrec.1, hrec.2.1, hrec.2.2.1, le_trans step.2.2.2.1 hrec.2.2.2⟩

/-- C3: over any run of the ingestion loop with log interval `L ≥ 0`, a
history row is appended on an event only when `now − last_logged_time ≥ L`;
`last_logged_time` only ever advances; consecutive logged rows are at least
`L` apart (at most one per `L`-second window) and never time-reversed. -/
theorem rate_gated_logging (L : ℚ) (hL : 0 ≤ L) (w : World)
    (hw : w.userdata.log_interval = L)
    (hchain : List.Chain' (fun a b => a + L ≤ b) w.logRows)
    (hlast : ∀ x, w.logRows.getLast? = some x → x ≤ w.userdata.last_logged_time)
    (evs : List (Env × Message)) :
    (runMessages w evs).userdata.log_interval = L ∧
    List.Chain' (fun a b => a + L ≤ b) (runMessages w evs).logRows ∧
    w.userdata.last_logged_time ≤ (runMessages w evs).userdata.last_logged_time ∧
    List.Chain' (fun a b => a ≤ b) (runMessages w evs).logRows ∧
    (∀ env msg, (on_message env w msg).world.logRows ≠ w.logRows →
      L ≤ env.time - w.userdata.last_logged_time) := by
  obtain ⟨h1, h2, h3, h4⟩ := runMessages_log_inv L hL evs w hw hchain hlast
  refine ⟨h1, h2, h4, ?_, ?_⟩
  · exact h2.imp fun a b hab => by linarith
  · intro env msg hne
    exact (on_message_log_step L hL env w msg hw hchain hlast).2.2.2.2 hne

/-- C3 witness: from the initial state, two sensor events at times 6 and 7
with interval 5 leave `last_logged_time` advanced (never decreased). -/
theorem rate_gated_logging_witness :
    (⟨⟨none, 5, 0⟩, .absent, .absent, []⟩ : World).userdata.last_logged_time ≤
      (runMessages ⟨⟨none, 5, 0⟩, .absent, .absent, []⟩
        [(⟨6, "a", true, true, true⟩, ⟨MQTT_TOPIC_SENSOR, .obj []⟩),
         (⟨7, "b", true, true, true⟩,
          ⟨MQTT_TOPIC_SENSOR, .obj []⟩)]).userdata.last_logged_time :=
  (rate_gated_logging 5 (by norm_num) ⟨⟨none, 5, 0⟩, .absent, .absent, []⟩ rfl
    trivial (fun x hx => by simp at hx)
    [(⟨6, "a", true, true, true⟩, ⟨MQTT_TOPIC_SENSOR, .obj []⟩),
     (⟨7, "b", true, true, true⟩, ⟨MQTT_TOPIC_SENSOR, .obj []⟩)]).2.2.1

/-- C10: when the rate gate fires on a sensor event, `last_logged_time` is
set to the current time whatever the outcome of the CSV append (the
environment flag `logOk` is arbitrary); a failed append leaves the log
unchanged; and no further row can be appended before the next interval
elapses. -/
theorem failed_log_write_still_consumes_window (env : Env) (w : World)
    (p : Payload)
    (hgate : w.userdata.log_interval ≤ env.time - w.userdata.last_logged_time) :
    (on_message env w
      ⟨MQTT_TOPIC_SENSOR, .obj p⟩).world.userdata.last_logged_time = env.time ∧
    (env.logOk = false →
      (on_message env w ⟨MQTT_TOPIC_SENSOR, .obj p⟩).world.logRows = w.logRows) ∧
    (∀ (env2 : Env) (p2 : Payload),
      env2.time - env.time < w.userdata.log_interval →
      (on_message env2 (on_message env w ⟨MQTT_TOPIC_SENSOR, .obj p⟩).world
          ⟨MQTT_TOPIC_SENSOR, .obj p2⟩).world.logRows =
        (on_message env w ⟨MQTT_TOPIC_SENSOR, .obj p⟩).world.logRows) := by
  simp only [on_message_sensor]
  refine ⟨?_, ?_, ?_⟩
  · rw [handle_sensor_last, if_pos hgate]
  · intro hlog
    rw [handle_sensor_rows, if_pos hgate, hlog]
    simp
  · intro env2 p2 hlt
    rw [handle_sensor_rows, handle_sensor_interval, handle_sensor_last,
      if_pos hgate]
    rw [if_neg (not_le.mpr hlt)]

/-- C10 witness: at time 10 with interval 5 and `last_logged_time` 0, a
sensor event whose CSV append fails still sets `last_logged_time` to 10 and
appends nothing. -/
theorem failed_log_write_still_consumes_window_witness :
    (on_message ⟨10, "t", false, true, true⟩ ⟨⟨none, 5, 0⟩, .absent, .absent, []⟩
      ⟨MQTT_TOPIC_SENSOR, .obj []⟩).world.userdata.last_logged_time = 10 ∧
    (on_message ⟨10, "t", false, true, true⟩ ⟨⟨none, 5, 0⟩, .absent, .absent, []⟩
      ⟨MQTT_TOPIC_SENSOR, .obj []⟩).world.logRows = [] :=
  ⟨(failed_log_write_still_consumes_window ⟨10, "t", false, true, true⟩
      ⟨⟨none, 5, 0⟩, .absent, .absent, []⟩ [] (by norm_num)).1,
   (failed_log_write_still_consumes_window ⟨10, "t", false, true, true⟩
      ⟨⟨none, 5, 0⟩, .absent, .absent, []⟩ [] (by norm_num)).2.1 rfl⟩

/-- The timestamp stamped onto an actuator-status event shadows none of the
six actuator keys. -/
lemma lookup_timestamp_cons (v : PyVal) (evt : Payload) (a : ActName) :
    (("timestamp", v) :: evt).lookup a.key = evt.lookup a.key := by
  cases a <;> rfl

/-- C6 counterexample: with `{fan: true, rest: false}` stored, an
actuator-status event `{"led": true}` that omits `fan` makes `fan` read back
`false` — not its last stored value `true` — and the next delta publish also
transmits `fan = false`. -/
theorem actuator_omitted_key_reads_false :
    read_back_actuator (.content fanOnSnapshot) .fan = .pyBool true ∧
    (on_message ⟨0, "t", true, true, true⟩
        ⟨⟨none, 5, 0⟩, .absent, .content fanOnSnapshot, []⟩
        ⟨MQTT_TOPIC_ACTUATOR, .obj [("led", .pyBool true)]⟩).world.actFile =
      .content [("timestamp", .nonNumeric "t"), ("led", .pyBool true)] ∧
    read_back_actuator
      (on_message ⟨0, "t", true, true, true⟩
        ⟨⟨none, 5, 0⟩, .absent, .content fanOnSnapshot, []⟩
        ⟨MQTT_TOPIC_ACTUATOR, .obj [("led", .pyBool true)]⟩).world.actFile
      .fan = .pyBool false ∧
    (publish_actuator_command
      (on_message ⟨0, "t", true, true, true⟩
        ⟨⟨none, 5, 0⟩, .absent, .content fanOnSnapshot, []⟩
        ⟨MQTT_TOPIC_ACTUATOR, .obj [("led", .pyBool true)]⟩).world.actFile
      .led true).getA .fan = .pyBool false :=
  ⟨rfl, rfl, rfl, rfl⟩

/-- C6 (amended): an actuator-status event replaces the stored snapshot
wholesale; a key omitted from the event is absent from the new document and
subsequently reads back as `false` (the default) — and the next delta publish
transmits `false` for it — rather than its previously stored value. -/
theorem actuator_status_full_replace (env : Env) (w : World) (evt : Payload)
    (a : ActName) (hsave : env.saveActOk = true)
    (hmiss : evt.lookup a.key = none) :
    (on_message env w ⟨MQTT_TOPIC_ACTUATOR, .obj evt⟩).world.actFile =
      .content (("timestamp", .nonNumeric env.nowStr) :: evt) ∧
    read_back_actuator
      (on_message env w ⟨MQTT_TOPIC_ACTUATOR, .obj evt⟩).world.actFile a =
      .pyBool false ∧
    (∀ (b : ActName) (s : Bool),
      (publish_actuator_command
        (on_message env w ⟨MQTT_TOPIC_ACTUATOR, .obj evt⟩).world.actFile b s).getA
          a = .pyBool (if a = b then s else false)) := by
  have hfile : (on_message env w ⟨MQTT_TOPIC_ACTUATOR, .obj evt⟩).world.actFile =
      .content (("timestamp", .nonNumeric env.nowStr) :: evt) := by
    rw [on_message_actuator]
    show (handle_actuator_status env w evt).1.actFile = _
    rw [handle_actuator_world]
    simp [hsave]
  refine ⟨hfile, ?_, ?_⟩
  · rw [hfile]
    simp [read_back_actuator, load_latest_actuator, lookup_timestamp_cons, hmiss]
  · intro b s
    rw [hfile, publish_actuator_command, ActPayload.getA_setA,
      ActPayload.getA_overlayStored, lookup_timestamp_cons, hmiss]
    by_cases hab : a = b
    · simp [hab]
    · simp [hab, ActPayload.getA_default]

/-- C6 (amended) witness: an event `{"led": true}` omitting `fan` leaves
`fan` reading back false. -/
theorem actuator_status_full_replace_witness :
    read_back_actuator
      (on_message ⟨0, "t", true, true, true⟩
        ⟨⟨none, 5, 0⟩, .absent, .content fanOnSnapshot, []⟩
        ⟨MQTT_TOPIC_ACTUATOR, .obj [("led", .pyBool true)]⟩).world.actFile
      .fan = .pyBool false :=
  (actuator_status_full_replace ⟨0, "t", true, true, true⟩
    ⟨⟨none, 5, 0⟩, .absent, .content fanOnSnapshot, []⟩
    [("led", .pyBool true)] .fan rfl rfl).2.1

end Tumbuhkan
